import Mathlib

/-!
Verification development for the `astro-content-loader` synchronization engine
(`src/index.ts`, `src/utils.ts`).

The embedding models the POSIX path platform (`path.sep = "/"`), strings as
Lean `String`, and the external collaborators of the loader (id generator,
digester, renderer, validator, store, watcher) as explicit parameters or state.
All string helpers are implemented by structural recursion over the character
list so that concrete runs reduce inside the kernel.
-/

namespace AstroContentLoader

/-! ## String and path helpers (model of `node:path` posix and `src/utils.ts`) -/

/-- Split a character list on a separator character, like JS `String.split`. -/
def splitSegsAux (sep : Char) : List Char → List Char → List (List Char)
  | [], acc => [acc.reverse]
  | c :: cs, acc =>
    if c = sep then acc.reverse :: splitSegsAux sep cs []
    else splitSegsAux sep cs (c :: acc)

/-- JS `p.split(path.sep)` with `path.sep = "/"`. -/
def splitPath (p : String) : List String :=
  (splitSegsAux '/' p.data []).map (fun cs => String.mk cs)

/-- Join a list of strings with a separator, like `Array.prototype.join`. -/
def joinWith (sep : String) : List String → String
  | [] => ""
  | [s] => s
  | s :: rest => s ++ sep ++ joinWith sep rest

/-- Model of `path.join(path.sep, ...parts)` for clean segments: empty
segments are dropped and the result is re-rooted at `/`. -/
def joinRooted (parts : List String) : String :=
  "/" ++ joinWith "/" (parts.filter (fun s => s != ""))

/-- Whether `pre` is a prefix of `s` (JS `s.startsWith(pre)`). -/
def startsWithStr (s pre : String) : Bool :=
  pre.data.isPrefixOf s.data

/-- Whether `suf` is a suffix of `s` (JS `s.endsWith(suf)`). -/
def endsWithStr (s suf : String) : Bool :=
  suf.data.isSuffixOf s.data

/-- Drop the last `n` characters of `s`. -/
def dropRightStr (s : String) (n : Nat) : String :=
  String.mk (s.data.take (s.data.length - n))

/-- Last path segment (`path.basename`, for paths without trailing slashes). -/
def basename (p : String) : String :=
  (splitPath p).getLastD ""

/-- Index of the last `'.'` in a character list, if any. -/
def lastDotIdx (cs : List Char) : Option Nat :=
  match cs.reverse.findIdx? (fun c => c == '.') with
  | none => none
  | some k => some (cs.length - 1 - k)

/-- Model of `path.extname`: the suffix of the basename from its last dot;
empty when there is no dot or the basename starts with its only dot. -/
def extname (p : String) : String :=
  let b := (basename p).data
  match lastDotIdx b with
  | none => ""
  | some 0 => ""
  | some i => String.mk (b.drop i)

/-- `entry.replace(new RegExp(path.extname(entry) + "$"), "")`: the regex is
anchored at the end and `entry` ends with its own extname, so for extensions
without regex metacharacters beyond the leading dot this removes exactly the
final `extname.length` characters; with no extension the replace is a no-op. -/
def stripExt (entry : String) : String :=
  let e := extname entry
  if e == "" then entry else dropRightStr entry e.length

/-- Length of the common segment prefix of two segment lists. -/
def commonPrefixLen : List String → List String → Nat
  | x :: xs, y :: ys => if x = y then commonPrefixLen xs ys + 1 else 0
  | _, _ => 0

/-- Model of POSIX `path.relative(from, to)` for absolute, clean inputs:
walk up with `..` for the non-shared part of `from`, then down into `to`. -/
def pathRelative (f t : String) : String :=
  let fs := (splitPath f).filter (fun s => s != "")
  let ts := (splitPath t).filter (fun s => s != "")
  let c := commonPrefixLen fs ts
  joinWith "/" (List.replicate (fs.length - c) ".." ++ ts.drop c)

/-- `posixRelative` from `src/utils.ts`: `path.relative` with separators
normalized to `/`. On the modelled POSIX platform the normalization
(`posixifyPath`) is the identity, so this is just `pathRelative`. -/
def posixRelative (f t : String) : String :=
  pathRelative f t

/-- Model of `path.join(a, b)` for the clean inputs used by the loader:
concatenation dropping empty and `"."` segments. -/
def pathJoin2 (a b : String) : String :=
  joinWith "/" ((splitPath a ++ splitPath b).filter (fun s => s != "" && s != "."))

/-! ## Identifier generation (`generateIdDefault`, `src/index.ts` lines 50-64) -/

/-- Declared metadata of a module: a string-keyed record, modelled as an
association list of string values. -/
abbrev Meta := List (String × String)

/-- JS `meta.slug` property access. -/
def metaSlug (m : Meta) : Option String :=
  (m.find? (fun kv => kv.1 == "slug")).map (fun kv => kv.2)

/-- Model (ASCII fragment) of `github-slugger`'s `slug`: lowercase, remove
punctuation except hyphen and underscore, then turn spaces into hyphens. -/
def githubSlug (s : String) : String :=
  String.mk
    ((((s.data.map Char.toLower).filter
        (fun c => c.isAlpha || c.isDigit || c == ' ' || c == '-' || c == '_')).map
      (fun c => if c = ' ' then '-' else c)))

/-- `.replace(/\/index$/, "")`: drop a trailing `/index` segment. -/
def dropTrailingIndex (s : String) : String :=
  if endsWithStr s "/index" then dropRightStr s 6 else s

/-- The path-derived part of `generateIdDefault`: strip the extension, split
on the separator, slugify each segment, rejoin with `/`, drop a trailing
`/index`. -/
def pathSlug (entry : String) : String :=
  dropTrailingIndex (joinWith "/" ((splitPath (stripExt entry)).map githubSlug))

/-- `generateIdDefault` from `src/index.ts`. The guard is
`if (meta && meta.slug)`: in JS an empty-string slug is falsy, so it falls
through to the path algorithm. -/
def generateIdDefault (entry : String) (meta : Option Meta) : String :=
  match meta.bind metaSlug with
  | some sl => if sl = "" then pathSlug entry else sl
  | none => pathSlug entry

/-- The reference algorithm exactly as the claim states it: a present `slug`
field is returned verbatim (no truthiness guard); otherwise the path
algorithm applies. -/
def generateIdClaim (entry : String) (meta : Option Meta) : String :=
  match meta.bind metaSlug with
  | some sl => sl
  | none => pathSlug entry

/-! ## Base-directory inference (`inferBase`, `src/index.ts` lines 66-80) -/

/-- Is this option exactly `some t`? (JS strict equality of an indexed
element against a string: `undefined === segment` is false.) -/
def optEqStr : Option String → String → Bool
  | some s, t => s == t
  | none, _ => false

/-- The `for` loop of `inferBase`: walk the first path's segments with their
index `i`, accumulating while every split path agrees at index `i`. -/
def inferBaseGo (splitPaths : List (List String)) : List String → Nat → List String
  | [], _ => []
  | seg :: rest, i =>
    if splitPaths.all (fun q => optEqStr q[i]? seg) then
      seg :: inferBaseGo splitPaths rest (i + 1)
    else []

/-- `inferBase` from `src/index.ts`: segment-wise common prefix of all paths,
re-rooted with `path.join(path.sep, ...baseParts)`. Callers only invoke it
with at least two paths. -/
def inferBase (paths : List String) : String :=
  let splitPaths := paths.map splitPath
  let firstPath := splitPaths.headD []
  joinRooted (inferBaseGo splitPaths firstPath 0)

/-- Specification-side pairwise common prefix of two segment lists. -/
def commonPrefix2 : List String → List String → List String
  | x :: xs, y :: ys => if x = y then x :: commonPrefix2 xs ys else []
  | _, _ => []

/-- Specification-side deepest common ancestor: fold the pairwise common
prefix over all split paths and re-root the result. -/
def deepestCommonAncestor (paths : List String) : String :=
  match paths.map splitPath with
  | [] => joinRooted []
  | l :: ls => joinRooted (ls.foldl commonPrefix2 l)

/-- Intermediate form of the common-prefix computation: consume the first
path's segments while every other (progressively shortened) list starts
with the same segment. -/
def lcpList : List String → List (List String) → List String
  | [], _ => []
  | x :: xs, rest =>
    if rest.all (fun q => optEqStr q.head? x) then
      x :: lcpList xs (rest.map List.tail)
    else []

/-! ## The synchronization engine (`astroContentLoader`, `src/index.ts`)

The external collaborators of §6 of the design (digester, renderer,
validator, id generator) are bundled as function parameters; the store and
the file-to-id index are association lists with at most one entry per key,
exactly the `Map` semantics the loader relies on.  Every store/validate/
render interaction is also logged as an `Action` so that call counts and
ordering (which several claims are about) are observable. -/

/-- A loaded module: optional declared metadata (`meta` export) and an
opaque renderable body (`default` export). -/
structure AstroContentInstance where
  meta : Option Meta
  body : String
deriving DecidableEq

/-- A record as held by the external store.  `store.set` in `syncData`
passes `id`, `data`, `rendered.html` and `filePath` — and no `digest` —
so `digest` is an `Option` that the loader itself always leaves `none`. -/
structure StoreRecord where
  data : Meta
  renderedHtml : String
  filePath : Option String
  digest : Option String
deriving DecidableEq

/-- The external key-value store, keyed by LogicalId. -/
abbrev Store := List (String × StoreRecord)

def storeGet (s : Store) (id : String) : Option StoreRecord :=
  (s.find? (fun pr => pr.1 == id)).map (fun pr => pr.2)

def storeDelete (s : Store) (id : String) : Store :=
  s.filter (fun pr => pr.1 != id)

def storeSet (s : Store) (id : String) (r : StoreRecord) : Store :=
  storeDelete s id ++ [(id, r)]

/-- `fileToIdMap`: absolute path to last-assigned LogicalId. -/
abbrev FileIdIndex := List (String × String)

def idxGet (m : FileIdIndex) (p : String) : Option String :=
  (m.find? (fun kv => kv.1 == p)).map (fun kv => kv.2)

def idxSet (m : FileIdIndex) (p id : String) : FileIdIndex :=
  m.filter (fun kv => kv.1 != p) ++ [(p, id)]

def idxDelete (m : FileIdIndex) (p : String) : FileIdIndex :=
  m.filter (fun kv => kv.1 != p)

/-- Mutable state owned by the engine during a load cycle. -/
structure EngineState where
  store : Store
  fileToIdMap : FileIdIndex
deriving DecidableEq

/-- The external collaborators consumed by the loader.  `generateId` gets
the entry path and the parsed metadata (the base directory argument is
fixed for a whole load cycle and omitted); `generateDigest` digests the
serialized instance; `render` is `container.renderToString` on the body;
`validateOk` tells whether `parseData` at `(id, data, filePath)` succeeds. -/
structure Collaborators where
  generateId : String → Option Meta → String
  generateDigest : AstroContentInstance → String
  render : String → String
  validateOk : String → Meta → String → Bool

/-- Observable steps of a load cycle, in execution order. -/
inductive Action where
  | warnNoModules
  | errorNoBase
  | errorBaseMissing (hint : Bool)
  | attachWatcher
  | deleteStale (id : String)
  | renderCall (entry : String)
  | validateCall (id : String) (ok : Bool)
  | storeWrite (id : String)
  | logReload (entry : String)
deriving DecidableEq

/-- `const fileUrl = new URL(encodeURI(entry), baseDir)`, then
`fileURLToPath(fileUrl)`.  `baseDir` is a file URL built from a path
without a trailing slash (`pathToFileURL(inferBase(...))` or
`new URL(base, config.root)`), so WHATWG relative-reference resolution
replaces the base URL's last path segment with the entry: the resulting
path is the parent of `baseDirPath` joined with `entry`.  For clean ASCII
entries `encodeURI` round-trips through `fileURLToPath` unchanged. -/
def syncFilePath (baseDirPath entry : String) : String :=
  joinWith "/" ((splitPath baseDirPath).dropLast) ++ "/" ++ entry

/-- `if (oldId && oldId !== id)`: the id whose record is deleted as stale,
if any.  An empty-string `oldId` is falsy in JS, so it never triggers. -/
def staleTarget (oldId : Option String) (id : String) : Option String :=
  match oldId with
  | some o => if o ≠ "" ∧ o ≠ id then some o else none
  | none => none

/-- The store after the stale-delete step of `syncData`. -/
def store1Of (s : Store) (oldId : Option String) (id : String) : Store :=
  match staleTarget oldId id with
  | some o => storeDelete s o
  | none => s

/-- Log of the stale-delete step. -/
def staleActions (oldId : Option String) (id : String) : List Action :=
  match staleTarget oldId id with
  | some o => [Action.deleteStale o]
  | none => []

/-- JS truthiness of an optional string (`undefined` and `""` are falsy). -/
def truthyOptStr : Option String → Bool
  | some s => s != ""
  | none => false

/-- `existingEntry && existingEntry.digest === digest && existingEntry.filePath`:
the digest short-circuit condition of `syncData`.  A stored record whose
`digest` is absent never matches the freshly computed digest string. -/
def recordUnchanged (existing : Option StoreRecord) (digest : String) : Bool :=
  match existing with
  | some r => (r.digest == some digest) && truthyOptStr r.filePath
  | none => false

/-- `syncData` from `src/index.ts` (lines 187-239), with its observable
actions.  Order of effects in the source: optional stale delete (before
the first await), then `container.renderToString` (before the digest
check), then the digest check — on a hit only `fileToIdMap` is updated —
otherwise `parseData` (called without `await`, so its failure neither
stops the store write nor is reported) followed by `store.set` (which
passes no `digest` field) and the `fileToIdMap` update. -/
def syncData (C : Collaborators) (rootPath baseDirPath : String) (st : EngineState)
    (entry : String) (inst : AstroContentInstance) (oldId : Option String) :
    EngineState × List Action :=
  let id := C.generateId entry inst.meta
  let store1 := store1Of st.store oldId id
  let digest := C.generateDigest inst
  let filePath := syncFilePath baseDirPath entry
  if recordUnchanged (storeGet store1 id) digest then
    ({ store := store1, fileToIdMap := idxSet st.fileToIdMap filePath id },
      staleActions oldId id ++ [Action.renderCall entry])
  else
    ({ store := storeSet store1 id
          { data := inst.meta.getD [], renderedHtml := C.render inst.body,
            filePath := some (posixRelative rootPath filePath), digest := none },
        fileToIdMap := idxSet st.fileToIdMap filePath id },
      staleActions oldId id ++
        [Action.renderCall entry,
         Action.validateCall id (C.validateOk id (inst.meta.getD []) filePath),
         Action.storeWrite id])

/-- The bulk pass of `load`: `Object.keys(modulesAbsolute).map(syncData)`.
The source fires the per-file promises without awaiting them; before its
first await each `syncData` performs no observable effect (bulk passes no
`oldId`), so a sequential fold yields a faithful linearization of the
per-file effects and the exact final state. -/
def bulkSyncTrace (C : Collaborators) (rootPath baseDirPath : String)
    (modulesAbsolute : List (String × AstroContentInstance)) (st : EngineState) :
    EngineState × List Action :=
  modulesAbsolute.foldl
    (fun acc pm =>
      let entry := posixRelative baseDirPath pm.1
      let r := syncData C rootPath baseDirPath acc.1 entry pm.2 none
      (r.1, acc.2 ++ r.2))
    (st, [])

/-- The glob result handed to the loader: either already-materialized
modules (`eager: true`) or lazy loader thunks.  The source decides which
by `typeof Object.values(modules)[0] !== "function"`; mixed maps are not
produced by `import.meta.glob`. -/
inductive Modules where
  | eager (entries : List (String × AstroContentInstance))
  | lazy (entries : List (String × (Unit → AstroContentInstance)))

def Modules.keys : Modules → List String
  | .eager es => es.map (fun pm => pm.1)
  | .lazy es => es.map (fun pf => pf.1)

/-- Materialize the module map, as `load` does once at its start.  The
second component logs, in order, every key whose lazy loader was invoked
(each thunk is applied exactly once; eager modules invoke nothing). -/
def Modules.materialize : Modules → List (String × AstroContentInstance) × List String
  | .eager es => (es, [])
  | .lazy es => (es.map (fun pf => (pf.1, pf.2 ())), es.map (fun pf => pf.1))

/-- Inputs of one `load` call.  Filesystem facts (`existsSync` answers) are
given as oracles since the loader only branches on them. -/
structure LoadInput where
  modules : Modules
  base : Option String
  hasWatcher : Bool
  baseDirExists : Bool
  relativeBaseDirExists : Bool
  rootPath : String

/-- `base ? ... : ...`: an empty-string base is falsy in JS. -/
def effectiveBase (inp : LoadInput) : Option String :=
  match inp.base with
  | some b => if b = "" then none else some b
  | none => none

/-- Resolution of a module key to an absolute path:
`new URL(p.startsWith(".") ? path.join("src", p) : path.join(".", p), config.root)`
then `fileURLToPath`, for clean keys against a root URL with a trailing
slash. -/
def resolveModuleKey (rootPath p : String) : String :=
  rootPath ++ "/" ++ pathJoin2 (if startsWithStr p "." then "src" else ".") p

/-- `new URL(base, config.root)` then `fileURLToPath`, for a clean explicit
base: an absolute path is taken as is, a relative one resolves under the
project root. -/
def resolveBaseOverride (rootPath b : String) : String :=
  if startsWithStr b "/" then b else rootPath ++ "/" ++ b

/-- The materialized module map keyed by absolute paths (`modulesAbsolute`). -/
def loadModulesAbsolute (inp : LoadInput) : List (String × AstroContentInstance) :=
  (inp.modules.materialize.1).map (fun pm => (resolveModuleKey inp.rootPath pm.1, pm.2))

/-- The resolved base directory path (`baseDirPath`). -/
def loadBaseDirPath (inp : LoadInput) : String :=
  match effectiveBase inp with
  | some b => resolveBaseOverride inp.rootPath b
  | none => inferBase ((loadModulesAbsolute inp).map (fun pm => pm.1))

/-- State captured by the watcher callbacks after `load` ran. -/
structure WatchState where
  modulesAbsolute : List (String × AstroContentInstance)
  baseDirPath : String
  rootPath : String
  watcherAttached : Bool
  engine : EngineState
deriving DecidableEq

/-- `load` from `src/index.ts` (lines 101-240).  Returns `none` when the
too-few-paths configuration error aborts the run.  Action order mirrors
the source's execution order: the zero-modules warning, the missing-base
error (the source logs it and continues), then — because the per-file
`syncData` promises are fired without `await` and suspend at their first
await before any observable effect — the watcher attach, and only then
the per-file render/validate/write effects. -/
def load (C : Collaborators) (inp : LoadInput) (st : EngineState) :
    Option WatchState × List Action :=
  let paths := inp.modules.keys
  let warnActs : List Action := if paths.length = 0 then [Action.warnNoModules] else []
  if paths.length < 2 ∧ effectiveBase inp = none then
    (none, warnActs ++ [Action.errorNoBase])
  else
    let modulesAbsolute := loadModulesAbsolute inp
    let baseDirPath := loadBaseDirPath inp
    let baseErrActs : List Action :=
      if inp.baseDirExists then []
      else
        [Action.errorBaseMissing
          (startsWithStr baseDirPath "/" && inp.relativeBaseDirExists)]
    let r := bulkSyncTrace C inp.rootPath baseDirPath modulesAbsolute st
    let attachActs : List Action := if inp.hasWatcher then [Action.attachWatcher] else []
    (some { modulesAbsolute := modulesAbsolute, baseDirPath := baseDirPath,
            rootPath := inp.rootPath, watcherAttached := inp.hasWatcher,
            engine := r.1 },
      warnActs ++ baseErrActs ++ attachActs ++ r.2)

/-- `onChange` from `src/index.ts` (lines 164-175): filter to tracked
paths, look up `oldId` under the notified path, resync from the
materialized instance, log the reload. -/
def onChange (C : Collaborators) (ws : WatchState) (changedPath : String) :
    WatchState × List Action :=
  match ws.modulesAbsolute.find? (fun pm => pm.1 == changedPath) with
  | some pm =>
    let entry := posixRelative ws.baseDirPath changedPath
    let oldId := idxGet ws.engine.fileToIdMap changedPath
    let r := syncData C ws.rootPath ws.baseDirPath ws.engine entry pm.2 oldId
    ({ ws with engine := r.1 }, r.2 ++ [Action.logReload entry])
  | none => (ws, [])

/-- `onUnlink` from `src/index.ts` (lines 176-182): `if (id)` — an
empty-string id is falsy in JS and is treated like an absent entry. -/
def onUnlink (ws : WatchState) (unlinkedPath : String) : WatchState × List Action :=
  match idxGet ws.engine.fileToIdMap unlinkedPath with
  | some id =>
    if id ≠ "" then
      ({ ws with engine :=
          { store := storeDelete ws.engine.store id,
            fileToIdMap := idxDelete ws.engine.fileToIdMap unlinkedPath } }, [])
    else (ws, [])
  | none => (ws, [])

/-- A filesystem notification.  `add` and `change` carry the file's new
on-disk content; the chokidar callbacks receive only the path, so the
handlers never see that content. -/
inductive WatchEvent where
  | add (path : String) (newContent : AstroContentInstance)
  | change (path : String) (newContent : AstroContentInstance)
  | unlink (path : String)

/-- Routing of watcher events: `watcher.on("add", onChange)`,
`watcher.on("change", onChange)`, `watcher.on("unlink", onUnlink)`. -/
def processEvent (C : Collaborators) (ws : WatchState) : WatchEvent → WatchState × List Action
  | .add p _ => onChange C ws p
  | .change p _ => onChange C ws p
  | .unlink p => onUnlink ws p

/-! ## Call-count helpers over action traces -/

def isRenderCall : Action → Bool
  | .renderCall _ => true
  | _ => false

def isValidateCall : Action → Bool
  | .validateCall _ _ => true
  | _ => false

def isStoreWrite : Action → Bool
  | .storeWrite _ => true
  | _ => false

def isAttach : Action → Bool
  | .attachWatcher => true
  | _ => false

def renderCalls (acts : List Action) : Nat := acts.countP isRenderCall

def validateCalls (acts : List Action) : Nat := acts.countP isValidateCall

def storeWrites (acts : List Action) : Nat := acts.countP isStoreWrite

/-! ## Concrete instantiations used to evaluate the claims

A two-file collection under `src/content/` of a project rooted at
`/proj`, with simple deterministic collaborators. -/

def instA : AstroContentInstance := { meta := none, body := "A" }

def instB : AstroContentInstance := { meta := none, body := "B" }

def demoCollab : Collaborators :=
  { generateId := fun entry meta => generateIdDefault entry meta
    generateDigest := fun i => "dg-" ++ i.body
    render := fun b => "[html]" ++ b
    validateOk := fun _ _ _ => true }

def demoModules : Modules :=
  Modules.eager [("./content/a.astro", instA), ("./content/b.astro", instB)]

def st0 : EngineState := { store := [], fileToIdMap := [] }

def demoInput : LoadInput :=
  { modules := demoModules, base := none, hasWatcher := true,
    baseDirExists := true, relativeBaseDirExists := false, rootPath := "/proj" }

def wsDefault : WatchState :=
  { modulesAbsolute := [], baseDirPath := "", rootPath := "",
    watcherAttached := false, engine := st0 }

/-- First bulk run over an empty persisted store. -/
def demoRun1 : Option WatchState × List Action := load demoCollab demoInput st0

def demoWs1 : WatchState := demoRun1.1.getD wsDefault

/-- Second bulk run, over the store persisted by the first. -/
def demoRun2 : Option WatchState × List Action := load demoCollab demoInput demoWs1.engine

def demoWs2 : WatchState := demoRun2.1.getD wsDefault

/-- A store holding a record for id `a` whose digest matches `instA`'s
current digest and whose canonical path is recorded — the premise of the
digest short-circuit. -/
def seededSt : EngineState :=
  { store := [("a", { data := [], renderedHtml := "old",
                      filePath := some "src/content/a.astro", digest := some "dg-A" })],
    fileToIdMap := [] }

/-- Watch state over the seeded store, tracking the single file
`/proj/src/content/a.astro`. -/
def ws2 : WatchState :=
  { modulesAbsolute := [("/proj/src/content/a.astro", instA)],
    baseDirPath := "/proj/src/content", rootPath := "/proj", watcherAttached := true,
    engine := { store := [("a", { data := [], renderedHtml := "old",
                                  filePath := some "src/a.astro", digest := some "dg-A" })],
                fileToIdMap := [] } }

def run2c : WatchState × List Action := onChange demoCollab ws2 "/proj/src/content/a.astro"

/-- Collaborators whose id generator yields `B` — the rename premise of C8. -/
def collab8 : Collaborators := { demoCollab with generateId := fun _ _ => "B" }

/-- Watch state whose index assigned id `A` to the tracked path. -/
def ws8 : WatchState :=
  { modulesAbsolute := [("/proj/src/content/a.astro", instA)],
    baseDirPath := "/proj/src/content", rootPath := "/proj", watcherAttached := true,
    engine := { store := [("A", { data := [], renderedHtml := "h",
                                  filePath := some "src/content/a.astro", digest := none })],
                fileToIdMap := [("/proj/src/content/a.astro", "A")] } }

def run8 : WatchState × List Action := onChange collab8 ws8 "/proj/src/content/a.astro"

/-- Unlink of the synced file's real absolute path after the first run. -/
def run9 : WatchState × List Action := onUnlink demoWs1 "/proj/src/content/a.astro"

/-- Collaborators whose validator rejects the entry with id `a`. -/
def collab5 : Collaborators := { demoCollab with validateOk := fun id _ _ => id != "a" }

def run5 : Option WatchState × List Action := load collab5 demoInput st0

def ws5 : WatchState := run5.1.getD wsDefault

/-- The demo input with a base directory that does not exist on disk while
its relative interpretation does. -/
def inp4 : LoadInput := { demoInput with baseDirExists := false, relativeBaseDirExists := true }

/-- The same input but with the base directory present. -/
def inp4ok : LoadInput := { inp4 with baseDirExists := true }

def run4 : Option WatchState × List Action := load demoCollab inp4 st0

def ws4 : WatchState := run4.1.getD wsDefault

/-- A changed on-disk content for the tracked file, carrying new metadata
and a new body; the handlers never look at it. -/
def cNew : AstroContentInstance := { meta := some [("slug", "zzz")], body := "NEW" }

/-! ## Lemmas about the common-prefix computation (claim C6) -/

theorem head?_drop_eq {α : Type} (q : List α) (i : Nat) : (q.drop i).head? = q[i]? := by
  induction q generalizing i with
  | nil => simp
  | cons a as ih =>
    cases i with
    | zero => simp
    | succ n => simp [ih n]

theorem tail_drop_eq {α : Type} (q : List α) (i : Nat) : (q.drop i).tail = q.drop (i + 1) := by
  induction q generalizing i with
  | nil => simp
  | cons a as ih =>
    cases i with
    | zero => simp
    | succ n => simp [ih n]

/-- The indexed loop of `inferBase` computes the same prefix as the
list-consuming form over progressively dropped paths. -/
theorem inferBaseGo_eq_lcpList (sp : List (List String)) (l : List String) (i : Nat) :
    inferBaseGo sp l i = lcpList l (sp.map (List.drop i)) := by
  induction l generalizing i with
  | nil => simp [inferBaseGo, lcpList]
  | cons x xs ih =>
    simp only [inferBaseGo, lcpList, List.all_map, Function.comp_def, head?_drop_eq]
    cases hb : sp.all (fun q => optEqStr q[i]? x) with
    | false => simp [hb]
    | true =>
      simp only [hb, if_true, List.map_map]
      have hdrop : (List.tail ∘ List.drop i) = (List.drop (i + 1) : List String → List String) := by
        funext q
        exact tail_drop_eq q i
      rw [hdrop, ih (i + 1)]

theorem lcpList_nil (a : List String) : lcpList a [] = a := by
  induction a with
  | nil => simp [lcpList]
  | cons x xs ih => simp [lcpList, ih]

theorem lcpList_cons_eq (a b : List String) (bs : List (List String)) :
    lcpList a (b :: bs) = lcpList (commonPrefix2 a b) bs := by
  induction a generalizing b bs with
  | nil => cases b <;> simp [lcpList, commonPrefix2]
  | cons x xs ih =>
    cases b with
    | nil => simp [lcpList, commonPrefix2, optEqStr]
    | cons y ys =>
      by_cases hxy : x = y
      · subst hxy
        simp [lcpList, commonPrefix2, optEqStr, ih, -List.all_eq_true]
      · have hyx : (y == x) = false := by
          simp only [beq_eq_false_iff_ne, ne_eq]
          exact fun h => hxy h.symm
        simp [lcpList, commonPrefix2, optEqStr, hxy, hyx, -List.all_eq_true]

theorem commonPrefix2_self (l : List String) : commonPrefix2 l l = l := by
  induction l with
  | nil => simp [commonPrefix2]
  | cons x xs ih => simp [commonPrefix2, ih]

theorem lcpList_eq_foldl (bs : List (List String)) (a : List String) :
    lcpList a bs = bs.foldl commonPrefix2 a := by
  induction bs generalizing a with
  | nil => simpa using lcpList_nil a
  | cons b bs ih => rw [lcpList_cons_eq, ih, List.foldl_cons]

/-- C6: for every set of at least two absolute paths sharing a common
ancestor, `inferBase` returns the deepest common ancestor directory — the
longest sequence of path segments on which all paths agree from index 0,
stopping at the first disagreement or exhaustion, re-rooted as an
absolute path (formalized as the fold of the pairwise segment-wise common
prefix over all paths, re-rooted by `joinRooted`). -/
theorem c6_inferBase_deepest_common_ancestor (paths : List String)
    (h2 : 2 ≤ paths.length)
    (habs : ∀ p ∈ paths, startsWithStr p "/" = true) :
    inferBase paths = deepestCommonAncestor paths := by
  match paths with
  | [] => simp at h2
  | p :: ps =>
    unfold inferBase deepestCommonAncestor
    simp only [List.map_cons, List.headD_cons]
    rw [inferBaseGo_eq_lcpList]
    have h0 : (splitPath p :: List.map splitPath ps).map (List.drop 0) =
        splitPath p :: List.map splitPath ps := by
      simp
    rw [h0, lcpList_cons_eq, commonPrefix2_self, lcpList_eq_foldl]

/-- C6 witness: a concrete two-path set whose deepest common ancestor is
`/proj/src/content`. -/
theorem c6_witness :
    2 ≤ (["/proj/src/content/posts/a.astro", "/proj/src/content/notes/b.astro"] : List String).length ∧
    (∀ p ∈ (["/proj/src/content/posts/a.astro", "/proj/src/content/notes/b.astro"] : List String),
      startsWithStr p "/" = true) ∧
    inferBase ["/proj/src/content/posts/a.astro", "/proj/src/content/notes/b.astro"] =
      deepestCommonAncestor ["/proj/src/content/posts/a.astro", "/proj/src/content/notes/b.astro"] ∧
    inferBase ["/proj/src/content/posts/a.astro", "/proj/src/content/notes/b.astro"] =
      "/proj/src/content" :=
  ⟨by decide, by decide,
    c6_inferBase_deepest_common_ancestor _ (by decide) (by decide), by decide⟩

/-! ## Claim C7: the default identifier generator -/

/-- C7 counterexample: the claim's reference algorithm returns a declared
slug verbatim, but `generateIdDefault` guards it with JS truthiness
(`if (meta && meta.slug)`), so an empty-string slug is ignored and the
path algorithm applies instead. -/
theorem c7_counterexample :
    generateIdDefault "posts/index.astro" (some [("slug", "")]) = "posts" ∧
    generateIdClaim "posts/index.astro" (some [("slug", "")]) = "" ∧
    generateIdDefault "posts/index.astro" (some [("slug", "")]) ≠
      generateIdClaim "posts/index.astro" (some [("slug", "")]) := by
  decide

/-- C7 (amended): a non-empty declared slug is returned verbatim
regardless of path; with no slug, or an empty (falsy) one, the id is the
claim's path algorithm — extension stripped, segments slugified
independently, rejoined with `/`, trailing `/index` dropped — and the two
example entries evaluate as the claim states. -/
theorem c7_generateIdDefault_amended :
    (∀ (e : String) (m : Option Meta) (sl : String),
        m.bind metaSlug = some sl → sl ≠ "" → generateIdDefault e m = sl) ∧
    (∀ (e : String) (m : Option Meta),
        m.bind metaSlug = none ∨ m.bind metaSlug = some "" →
        generateIdDefault e m = generateIdClaim e none) ∧
    generateIdDefault "posts/My First Post.astro" none = "posts/my-first-post" ∧
    generateIdDefault "posts/index.astro" none = "posts" := by
  refine ⟨?_, ?_, by decide, by decide⟩
  · intro e m sl h hne
    unfold generateIdDefault
    rw [h]
    simp [hne]
  · intro e m h
    unfold generateIdDefault generateIdClaim
    cases h with
    | inl h => rw [h]; rfl
    | inr h => rw [h]; simp

/-- C7 witness: a declared slug wins over the path; a slug-free entry
follows the claim's path algorithm. -/
theorem c7_witness :
    generateIdDefault "posts/My First Post.astro" (some [("slug", "custom")]) = "custom" ∧
    generateIdDefault "posts/notes.astro" none = generateIdClaim "posts/notes.astro" none :=
  ⟨c7_generateIdDefault_amended.1 "posts/My First Post.astro" (some [("slug", "custom")])
      "custom" (by decide) (by decide),
    c7_generateIdDefault_amended.2.1 "posts/notes.astro" none (Or.inl rfl)⟩

/-! ## Store lemmas shared by the general theorems -/

theorem storeGet_mem_of_eq_some {s : Store} {i : String} {r : StoreRecord}
    (h : storeGet s i = some r) : ∃ pr ∈ s, pr.2 = r := by
  unfold storeGet at h
  cases hf : s.find? (fun pr => pr.1 == i) with
  | none => rw [hf] at h; simp at h
  | some pr =>
    rw [hf] at h
    simp at h
    exact ⟨pr, List.mem_of_find?_eq_some hf, h⟩

theorem storeDelete_digest_none {s : Store} (hdig : ∀ pr ∈ s, pr.2.digest = none)
    (o : String) : ∀ pr ∈ storeDelete s o, pr.2.digest = none := by
  intro pr hpr
  exact hdig pr (List.mem_of_mem_filter hpr)

theorem store1Of_digest_none {s : Store} (hdig : ∀ pr ∈ s, pr.2.digest = none)
    (oldId : Option String) (id : String) :
    ∀ pr ∈ store1Of s oldId id, pr.2.digest = none := by
  unfold store1Of
  cases staleTarget oldId id with
  | none => exact hdig
  | some o => exact storeDelete_digest_none hdig o

/-- A store none of whose records carries a digest never satisfies the
digest short-circuit. -/
theorem recordUnchanged_false_of_digest_none {s : Store}
    (hdig : ∀ pr ∈ s, pr.2.digest = none) (id d : String) :
    recordUnchanged (storeGet s id) d = false := by
  cases hg : storeGet s id with
  | none => simp [recordUnchanged]
  | some r =>
    obtain ⟨pr, hmem, hpr⟩ := storeGet_mem_of_eq_some hg
    have : r.digest = none := by rw [← hpr]; exact hdig pr hmem
    simp [recordUnchanged, this]

theorem storeGet_storeSet_self (s : Store) (id : String) (r : StoreRecord) :
    storeGet (storeSet s id r) id = some r := by
  unfold storeGet storeSet
  rw [List.find?_append]
  have hnone : (storeDelete s id).find? (fun pr => pr.1 == id) = none := by
    rw [List.find?_eq_none]
    intro pr hpr
    unfold storeDelete at hpr
    have := (List.mem_filter.mp hpr).2
    simp at this ⊢
    exact this
  rw [hnone]
  simp

theorem staleActions_renderCalls (oldId : Option String) (id : String) :
    renderCalls (staleActions oldId id) = 0 := by
  unfold staleActions renderCalls
  cases staleTarget oldId id <;> simp [List.countP, List.countP.go, isRenderCall]

theorem staleActions_validateCalls (oldId : Option String) (id : String) :
    validateCalls (staleActions oldId id) = 0 := by
  unfold staleActions validateCalls
  cases staleTarget oldId id <;> simp [List.countP, List.countP.go, isValidateCall]

theorem staleActions_storeWrites (oldId : Option String) (id : String) :
    storeWrites (staleActions oldId id) = 0 := by
  unfold staleActions storeWrites
  cases staleTarget oldId id <;> simp [List.countP, List.countP.go, isStoreWrite]

/-- On a store none of whose records carries a digest — the only kind of
store this engine ever writes — `syncData` always takes the full-pipeline
branch: it renders, validates, writes the record built from the given
instance, and re-keys the index under the URL-derived path. -/
theorem syncData_of_digest_none (C : Collaborators) (rootPath baseDirPath : String)
    (st : EngineState) (entry : String) (inst : AstroContentInstance)
    (oldId : Option String) (hdig : ∀ pr ∈ st.store, pr.2.digest = none) :
    syncData C rootPath baseDirPath st entry inst oldId =
      ({ store :=
            storeSet (store1Of st.store oldId (C.generateId entry inst.meta))
              (C.generateId entry inst.meta)
              { data := inst.meta.getD [], renderedHtml := C.render inst.body,
                filePath := some (posixRelative rootPath (syncFilePath baseDirPath entry)),
                digest := none },
          fileToIdMap := idxSet st.fileToIdMap (syncFilePath baseDirPath entry)
            (C.generateId entry inst.meta) },
        staleActions oldId (C.generateId entry inst.meta) ++
          [Action.renderCall entry,
           Action.validateCall (C.generateId entry inst.meta)
             (C.validateOk (C.generateId entry inst.meta) (inst.meta.getD [])
               (syncFilePath baseDirPath entry)),
           Action.storeWrite (C.generateId entry inst.meta)]) := by
  have h2 := recordUnchanged_false_of_digest_none
    (store1Of_digest_none hdig oldId (C.generateId entry inst.meta))
    (C.generateId entry inst.meta) (C.generateDigest inst)
  simp only [syncData, h2]
  simp

/-- C2 (amended): `onChange` reuses the shared `syncData` pipeline, which
does contain a digest short-circuit; but records written by this engine
never carry a digest, so on any store the engine itself produced the
check is vacuous and every change notification re-runs validation,
rendering, and the store write (one call each per notification). -/
theorem c2_onchange_full_pipeline_amended (C : Collaborators) (ws : WatchState) (P : String)
    (pm : String × AstroContentInstance)
    (hfind : ws.modulesAbsolute.find? (fun q => q.1 == P) = some pm)
    (hdig : ∀ pr ∈ ws.engine.store, pr.2.digest = none) :
    renderCalls (onChange C ws P).2 = 1 ∧
    validateCalls (onChange C ws P).2 = 1 ∧
    storeWrites (onChange C ws P).2 = 1 := by
  simp only [onChange, hfind]
  rw [syncData_of_digest_none C ws.rootPath ws.baseDirPath ws.engine
    (posixRelative ws.baseDirPath P) pm.2 (idxGet ws.engine.fileToIdMap P) hdig]
  have hr := staleActions_renderCalls (idxGet ws.engine.fileToIdMap P)
    (C.generateId (posixRelative ws.baseDirPath P) pm.2.meta)
  have hv := staleActions_validateCalls (idxGet ws.engine.fileToIdMap P)
    (C.generateId (posixRelative ws.baseDirPath P) pm.2.meta)
  have hw := staleActions_storeWrites (idxGet ws.engine.fileToIdMap P)
    (C.generateId (posixRelative ws.baseDirPath P) pm.2.meta)
  unfold renderCalls at hr ⊢
  unfold validateCalls at hv ⊢
  unfold storeWrites at hw ⊢
  refine ⟨?_, ?_, ?_⟩ <;>
    simp [List.countP_append, List.countP_cons, hr, hv, hw,
      isRenderCall, isValidateCall, isStoreWrite]

/-- C2 witness: the engine-written two-file store of the demo run. -/
theorem c2_witness :
    renderCalls (onChange demoCollab demoWs1 "/proj/src/content/a.astro").2 = 1 ∧
    validateCalls (onChange demoCollab demoWs1 "/proj/src/content/a.astro").2 = 1 ∧
    storeWrites (onChange demoCollab demoWs1 "/proj/src/content/a.astro").2 = 1 :=
  c2_onchange_full_pipeline_amended demoCollab demoWs1 "/proj/src/content/a.astro"
    ("/proj/src/content/a.astro", instA) (by decide) (by decide)

/-- C10: the module map is materialized exactly once at the start of
`load` (the materialization invokes each lazy loader once, logging its
key exactly in key order, and eager materialization invokes none); the
watcher handlers receive only a path, so the state transition of an
add/change notification is independent of the file's new on-disk
content; and the record a change writes is built from the instance
materialized at load — its data is that instance's metadata and its
rendered output is the render of that instance's body. -/
theorem c10_module_map_materialized_once :
    (∀ (es : List (String × (Unit → AstroContentInstance))),
        (Modules.lazy es).materialize.2 = es.map (fun pf => pf.1)) ∧
    (∀ (es : List (String × AstroContentInstance)),
        (Modules.eager es).materialize = (es, [])) ∧
    (∀ (C : Collaborators) (ws : WatchState) (P : String) (c c' : AstroContentInstance),
        processEvent C ws (WatchEvent.change P c) = processEvent C ws (WatchEvent.change P c') ∧
        processEvent C ws (WatchEvent.add P c) = processEvent C ws (WatchEvent.add P c')) ∧
    (∀ (C : Collaborators) (ws : WatchState) (P : String)
        (pm : String × AstroContentInstance) (c : AstroContentInstance),
        ws.modulesAbsolute.find? (fun q => q.1 == P) = some pm →
        (∀ pr ∈ ws.engine.store, pr.2.digest = none) →
        storeGet (processEvent C ws (WatchEvent.change P c)).1.engine.store
            (C.generateId (posixRelative ws.baseDirPath P) pm.2.meta) =
          some { data := pm.2.meta.getD [], renderedHtml := C.render pm.2.body,
                 filePath := some (posixRelative ws.rootPath
                   (syncFilePath ws.baseDirPath (posixRelative ws.baseDirPath P))),
                 digest := none }) := by
  refine ⟨fun es => rfl, fun es => rfl, fun C ws P c c' => ⟨rfl, rfl⟩, ?_⟩
  intro C ws P pm c hfind hdig
  simp only [processEvent, onChange, hfind]
  rw [syncData_of_digest_none C ws.rootPath ws.baseDirPath ws.engine
    (posixRelative ws.baseDirPath P) pm.2 (idxGet ws.engine.fileToIdMap P) hdig]
  exact storeGet_storeSet_self _ _ _

/-- C10 witness: a change notification carrying brand-new content `cNew`
still stores the html and data of the load-time instance `instA`. -/
theorem c10_witness :
    storeGet (processEvent demoCollab demoWs1
        (WatchEvent.change "/proj/src/content/a.astro" cNew)).1.engine.store
      (demoCollab.generateId (posixRelative demoWs1.baseDirPath "/proj/src/content/a.astro")
        instA.meta) =
      some { data := instA.meta.getD [], renderedHtml := demoCollab.render instA.body,
             filePath := some (posixRelative demoWs1.rootPath
               (syncFilePath demoWs1.baseDirPath
                 (posixRelative demoWs1.baseDirPath "/proj/src/content/a.astro"))),
             digest := none } :=
  c10_module_map_materialized_once.2.2.2 demoCollab demoWs1 "/proj/src/content/a.astro"
    ("/proj/src/content/a.astro", instA) cNew (by decide) (by decide)

/-! ## Claim C4: nonexistent base directory -/

/-- C4 counterexample: with a base directory missing on disk (but its
relative interpretation present), `load` logs the hinted error yet does
not abort — both files are still synced and written to the store. -/
theorem c4_counterexample :
    Action.errorBaseMissing true ∈ run4.2 ∧
    storeWrites run4.2 = 2 ∧
    (storeGet ws4.engine.store "a").isSome = true ∧
    (storeGet ws4.engine.store "b").isSome = true := by
  decide

/-- C4 (amended): when the resolved base directory does not exist, `load`
reports an error whose corrective hint is raised exactly when the
computed path has a leading separator and the relative interpretation
exists; but it does not abort: the resulting state and the number of
store writes are the same as when the directory exists. -/
theorem c4_missing_base_reports_and_continues_amended (C : Collaborators) (inp : LoadInput)
    (st : EngineState) (h2 : 2 ≤ inp.modules.keys.length)
    (hmiss : inp.baseDirExists = false) :
    (load C inp st).1 = (load C { inp with baseDirExists := true } st).1 ∧
    Action.errorBaseMissing
        (startsWithStr (loadBaseDirPath inp) "/" && inp.relativeBaseDirExists)
      ∈ (load C inp st).2 ∧
    storeWrites (load C inp st).2 = storeWrites (load C { inp with baseDirExists := true } st).2 := by
  have hkeys : ¬ (inp.modules.keys.length < 2 ∧ effectiveBase inp = none) :=
    fun h => absurd h.1 (by omega)
  have hma : loadModulesAbsolute { inp with baseDirExists := true } = loadModulesAbsolute inp := rfl
  have hbd : loadBaseDirPath { inp with baseDirExists := true } = loadBaseDirPath inp := rfl
  have hmods : ({ inp with baseDirExists := true } : LoadInput).modules = inp.modules := rfl
  have hroot : ({ inp with baseDirExists := true } : LoadInput).rootPath = inp.rootPath := rfl
  have hwatch : ({ inp with baseDirExists := true } : LoadInput).hasWatcher = inp.hasWatcher := rfl
  have heb : effectiveBase { inp with baseDirExists := true } = effectiveBase inp := rfl
  have htrue : ({ inp with baseDirExists := true } : LoadInput).baseDirExists = true := rfl
  refine ⟨?_, ?_, ?_⟩ <;>
    simp [load, hma, hbd, hmods, hroot, hwatch, heb, htrue, hmiss, hkeys,
      storeWrites, List.countP_append, List.countP_cons, isStoreWrite]

/-- C4 witness: the demo collection with a missing base directory. -/
theorem c4_witness :
    (load demoCollab inp4 st0).1 = (load demoCollab { inp4 with baseDirExists := true } st0).1 ∧
    Action.errorBaseMissing
        (startsWithStr (loadBaseDirPath inp4) "/" && inp4.relativeBaseDirExists)
      ∈ (load demoCollab inp4 st0).2 := by
  have h := c4_missing_base_reports_and_continues_amended demoCollab inp4 st0 (by decide) rfl
  exact ⟨h.1, h.2.1⟩

/-! ## Concrete theorems settling the remaining claims -/

/-- C1: the digest short-circuit does not behave as claimed.  A record
with a matching digest and recorded path makes `syncData` skip validation
and the store write but not rendering (the render happens before the
check); and because `store.set` never persists a digest, a second
`bulkSync` run over the unchanged demo files finds no matching digests
and performs two render and two validate calls instead of zero — only
the FileIdentityIndex mapping is left unchanged. -/
theorem c1_second_run_rerenders :
    renderCalls demoRun2.2 = 2 ∧
    validateCalls demoRun2.2 = 2 ∧
    storeWrites demoRun2.2 = 2 ∧
    demoWs2.engine.fileToIdMap = demoWs1.engine.fileToIdMap ∧
    (∀ pr ∈ demoWs1.engine.store, pr.2.digest = none) ∧
    renderCalls (syncData demoCollab "/proj" "/proj/src/content" seededSt "a.astro" instA none).2 = 1 ∧
    validateCalls (syncData demoCollab "/proj" "/proj/src/content" seededSt "a.astro" instA none).2 = 0 ∧
    storeWrites (syncData demoCollab "/proj" "/proj/src/content" seededSt "a.astro" instA none).2 = 0 := by
  decide

/-- C2 counterexample: a store already holding a record under the
generated id with a matching digest and a recorded path makes `onChange`
skip both validation and the store write (only the render happens), so
the pipeline is not run unconditionally on the change path. -/
theorem c2_counterexample :
    validateCalls run2c.2 = 0 ∧
    storeWrites run2c.2 = 0 ∧
    renderCalls run2c.2 = 1 ∧
    run2c.1.engine.store = ws2.engine.store := by
  decide

/-- C3: in the demo load the watcher-attach action occurs at trace index
0, before the first store write at index 3 (and the second at index 6):
the per-file `syncData` promises are fired without `await`, so the
watcher is registered while every bulk-phase store write is still
pending. -/
theorem c3_watcher_attached_before_writes :
    demoRun1.2.findIdx? isAttach = some 0 ∧
    demoRun1.2.findIdx? isStoreWrite = some 3 ∧
    storeWrites demoRun1.2 = 2 ∧
    demoRun1.2.length = 7 := by
  decide

/-- C5: with a validator that rejects the entry with id `a`, `bulkSync`
over the two demo files still writes two StoreRecords — the failing
file's record included — because `parseData` is not awaited; the failed
validation call is visible in the trace but produces no report and stops
nothing. -/
theorem c5_failed_validation_still_writes :
    Action.validateCall "a" false ∈ run5.2 ∧
    storeWrites run5.2 = 2 ∧
    (storeGet ws5.engine.store "a").isSome = true ∧
    (storeGet ws5.engine.store "b").isSome = true := by
  decide

/-- C8: on a change of tracked path `P` whose assigned id moves from `A`
to `B`, the stale record `A` is deleted and a record `B` is written, but
the index entry for `B` is keyed under the URL-mangled path
`/proj/src/a.astro` (the file URL of the base directory has no trailing
slash, so resolution drops its last segment); `FileIdentityIndex[P]`
remains `A`, not `B` as claimed. -/
theorem c8_rename_updates_wrong_index_key :
    storeGet run8.1.engine.store "A" = none ∧
    (storeGet run8.1.engine.store "B").isSome = true ∧
    idxGet run8.1.engine.fileToIdMap "/proj/src/content/a.astro" = some "A" ∧
    idxGet run8.1.engine.fileToIdMap "/proj/src/a.astro" = some "B" := by
  decide

/-- C9: after the demo load synced `/proj/src/content/a.astro` (its record
is in the store), `onUnlink` on that very path is a no-op: the index was
keyed under the URL-mangled `/proj/src/a.astro`, so the lookup misses and
neither the StoreRecord nor the index entry is removed. -/
theorem c9_unlink_of_synced_path_noop :
    run9.1 = demoWs1 ∧
    run9.2 = [] ∧
    (storeGet demoWs1.engine.store "a").isSome = true ∧
    idxGet demoWs1.engine.fileToIdMap "/proj/src/content/a.astro" = none ∧
    idxGet demoWs1.engine.fileToIdMap "/proj/src/a.astro" = some "a" := by
  decide

end AstroContentLoader
